import Mathlib

/-!
Verification of the tabular-extraction logic of the Flourish Collective
dashboard (`src/app.py`) against its natural-language specification.

The embedding models:
* spreadsheet cells (`Cell`) as produced by the workbook reader: a cell is
  Python `None`, a float NaN (how pandas represents an empty cell), a finite
  number, or a string;
* Python's `float(...)` string conversion (`parseFloat`) and the defensive
  coercion `safe_float` (`safeFloat`);
* the six per-sheet extractions of `load_data` (`loadTable`, `loadData`),
  including the pandas behaviours they rely on: `iloc` slicing, NaN padding,
  the `ValueError` raised when assigning a column-name list whose length
  differs from the sliced frame's column count, and the `notna` / label
  filters;
* the metric-lookup pattern `df[df[key] == label][col].values[0] if len(...)
  else default` (`lookupPattern`), the Revenue-Analysis TOTAL fallback
  (`revenueAnalysisYtd`), `format_currency` (`formatCurrency`) and the goals
  progress normalization (`pctNormalize`, `progressArg`).

Exceptions raised by the Python code are modelled with `Except String`.
-/

namespace Flourish

/-- A spreadsheet cell as handed to `load_data` by the workbook reader. -/
inductive Cell where
  | null
  | nan
  | num (q : Rat)
  | str (s : String)
deriving DecidableEq

/-- The result of Python's `float(...)`: NaN, a signed infinity, or a finite
value (modelled as a rational). -/
inductive PyNum where
  | nan
  | inf (neg : Bool)
  | fin (q : Rat)
deriving DecidableEq

/-- `pd.isna`: true exactly for `None` and NaN. -/
def isna : Cell → Bool
  | .null => true
  | .nan => true
  | _ => false

/-- Digit list to a natural number (most significant first). -/
def digitsToNat (cs : List Char) : Nat :=
  cs.foldl (fun a c => a * 10 + (c.toNat - 48)) 0

/-- The mantissa of a Python float literal: `digits`, `digits.digits`,
`.digits` or `digits.` with at least one digit overall. -/
def parseMantissa (cs : List Char) : Option Rat :=
  let p := cs.span (fun c => c != '.')
  match p.2 with
  | [] =>
      if !p.1.isEmpty && p.1.all Char.isDigit then
        some ((digitsToNat p.1 : Nat) : Rat)
      else Option.none
  | _ :: fp =>
      if !(p.1.isEmpty && fp.isEmpty) && p.1.all Char.isDigit
          && fp.all Char.isDigit then
        some (((digitsToNat p.1 : Nat) : Rat)
          + ((digitsToNat fp : Nat) : Rat) / ((10 : Rat) ^ fp.length))
      else Option.none

/-- Strip an optional sign; `true` means negative. -/
def parseSign (cs : List Char) : Bool × List Char :=
  match cs with
  | '+' :: r => (false, r)
  | '-' :: r => (true, r)
  | r => (false, r)

/-- Python's `float(str)`: strip whitespace, optional sign, then either the
keywords `nan` / `inf` / `infinity` (case-insensitive) or a decimal number
with optional fraction and exponent.  Returns `none` when conversion would
raise `ValueError` — in particular for the empty string and for the
not-available sentinel `"NA"` in any casing, which matches no keyword and no
digit. -/
def parseFloat (s : String) : Option PyNum :=
  let cs := ((s.data.dropWhile Char.isWhitespace).reverse.dropWhile
      Char.isWhitespace).reverse
  let sg := parseSign cs
  let low := sg.2.map Char.toLower
  if low = ['n', 'a', 'n'] then some PyNum.nan
  else if low = ['i', 'n', 'f'] ∨ low = ['i', 'n', 'f', 'i', 'n', 'i', 't', 'y'] then
    some (PyNum.inf sg.1)
  else
    let me := sg.2.span (fun c => c != 'e' && c != 'E')
    match parseMantissa me.1 with
    | Option.none => Option.none
    | some m =>
        let signed : Rat := if sg.1 then -m else m
        match me.2 with
        | [] => some (PyNum.fin signed)
        | _ :: es =>
            let esg := parseSign es
            if !esg.2.isEmpty && esg.2.all Char.isDigit then
              let e := digitsToNat esg.2
              some (PyNum.fin (if esg.1 then signed / ((10 : Rat) ^ e)
                else signed * ((10 : Rat) ^ e)))
            else Option.none

/-- The body of `safe_float`'s `try`: Python `float(val)`.  `float(None)`
raises `TypeError`; a string that does not parse raises `ValueError`. -/
def pyFloatOf : Cell → Except String PyNum
  | .null => .error "TypeError"
  | .nan => .ok PyNum.nan
  | .num q => .ok (PyNum.fin q)
  | .str s =>
      match parseFloat s with
      | some p => .ok p
      | Option.none => .error "ValueError"

/-- `safe_float(val, default)` (src/app.py lines 127-133): returns `default`
when `pd.isna(val)` holds, otherwise `float(val)`, and the bare `except`
turns any conversion error into `default`.  The Python default argument is
`0`; call sites here pass it explicitly.  The function is total: the
`try`/`except` structure means it never raises. -/
def safeFloat (val : Cell) (dflt : Rat) : PyNum :=
  if isna val then PyNum.fin dflt
  else
    match pyFloatOf val with
    | .ok p => p
    | .error _ => PyNum.fin dflt

/-- A sheet as read by `pd.read_excel(..., header=None)`: a list of rows of
cells.  Short rows are implicitly padded with NaN up to the widest row, which
`padRow` makes explicit. -/
abbrev Grid := List (List Cell)

/-- The column count of the DataFrame `read_excel` builds from a grid: the
maximum row length. -/
def gridNCols (g : Grid) : Nat :=
  g.foldr (fun r m => max r.length m) 0

/-- A row padded with NaN to width `k`, as pandas pads ragged input. -/
def padRow (r : List Cell) (k : Nat) : List Cell :=
  (List.range k).map (fun c => (r.get? c).getD Cell.nan)

/-- `df.iloc[r0:r1, 0:k]`: rows `r0` to `r1` (clamped), the first
`min k ncols` columns, each row padded to that width. -/
def ilocSlice (g : Grid) (r0 r1 k : Nat) : List (List Cell) :=
  ((g.drop r0).take (r1 - r0)).map (fun r => padRow r (min k (gridNCols g)))

/-- A normalized per-sheet table: the assigned column names plus the kept
rows. -/
structure Table where
  columns : List String
  rows : List (List Cell)
deriving DecidableEq

/-- Elementwise pandas `series != literal`: NaN and numbers differ from any
string, so only an equal string cell compares equal. -/
def cellNeStr (c : Cell) (s : String) : Bool :=
  match c with
  | .str t => t != s
  | _ => true

/-- Elementwise pandas `series == literal` against a string literal. -/
def cellEqStr (c : Cell) (s : String) : Bool :=
  match c with
  | .str t => t == s
  | _ => false

/-- The key-column cell of a row; every sheet of `load_data` keys on column
0 (`Metric`, `Category` or `Goal`). -/
def rowLabel (r : List Cell) : Cell :=
  r.headD Cell.nan

/-- The row filter each sheet applies after the slice: the key cell is not
NA, and (for the sheets that also guard against a repeated header row) is
not equal to the header literal. -/
def keepRow (hdr : Option String) (r : List Cell) : Bool :=
  !isna (rowLabel r)
    && (match hdr with
        | some h => cellNeStr (rowLabel r) h
        | Option.none => true)

/-- One sheet extraction of `load_data`: `df.iloc[r0:r1, 0:k].copy()`, then
`.columns = names` — which raises pandas' length-mismatch `ValueError`
unless the sliced frame has exactly `names.length` columns — then the
boolean-mask row filter. -/
def loadTable (g : Grid) (r0 r1 k : Nat) (names : List String)
    (hdr : Option String) : Except String Table :=
  if min k (gridNCols g) = names.length then
    .ok ⟨names, (ilocSlice g r0 r1 k).filter (keepRow hdr)⟩
  else .error "Length mismatch"

/-- A workbook: named sheets.  Reading the workbook bytes is the external
collaborator's job; `load_data` receives the sheet grids. -/
abbrev Workbook := List (String × Grid)

/-- Sheet lookup by name. -/
def lookupSheet (wb : Workbook) (name : String) : Option Grid :=
  (wb.find? (fun p => p.1 == name)).map Prod.snd

/-- `pd.read_excel(file, sheet_name=name, header=None)`: raises when the
worksheet does not exist. -/
def readExcel (wb : Workbook) (name : String) : Except String Grid :=
  match lookupSheet wb name with
  | some g => .ok g
  | Option.none => .error ("Worksheet " ++ name ++ " not found")

/-- Column names assigned to the Dashboard_Data slice (line 43). -/
def summaryCols : List String :=
  ["Metric", "Current", "Target", "Pct_Target", "Prior_Year", "YoY_Change"]

/-- Column names assigned to the Monthly_Revenue slice (lines 50-51). -/
def revenueCols : List String :=
  ["Category", "Jan", "Feb", "Mar", "Apr", "May", "Jun",
   "Jul", "Aug", "Sep", "Oct", "Nov", "Dec", "YTD", "Budget", "Pct"]

/-- Column names assigned to the Monthly_Expenses slice (lines 58-59). -/
def expensesCols : List String :=
  ["Category", "Jan", "Feb", "Mar", "Apr", "May", "Jun",
   "Jul", "Aug", "Sep", "Oct", "Nov", "Dec", "YTD", "Budget", "Pct"]

/-- Column names assigned to the Community_Metrics slice (lines 66-67). -/
def communityCols : List String :=
  ["Metric", "Jan", "Feb", "Mar", "Apr", "May", "Jun",
   "Jul", "Aug", "Sep", "Oct", "Nov", "Dec"]

/-- Column names assigned to the Historical_Data slice (line 74). -/
def historicalCols : List String :=
  ["Metric", "FY21", "FY22", "FY23", "FY24", "FY25"]

/-- Column names assigned to the Goals_2030 slice (line 81). -/
def goalsCols : List String :=
  ["Goal", "Target", "Current", "Pct_Complete", "Remaining"]

/-- The `data` dictionary `load_data` returns. -/
structure DashData where
  summary : Table
  revenue : Table
  expenses : Table
  community : Table
  historical : Table
  goals : Table
deriving DecidableEq

/-- `load_data` (src/app.py lines 35-85): reads six sheets in order and
normalizes each.  Any `read_excel` failure (missing sheet) or column
length-mismatch propagates as an exception — the function has no handler. -/
def loadData (wb : Workbook) : Except String DashData := do
  let g1 ← readExcel wb "Dashboard_Data"
  let summary ← loadTable g1 4 28 6 summaryCols Option.none
  let g2 ← readExcel wb "Monthly_Revenue"
  let revenue ← loadTable g2 2 12 16 revenueCols (some "Category")
  let g3 ← readExcel wb "Monthly_Expenses"
  let expenses ← loadTable g3 2 8 16 expensesCols (some "Category")
  let g4 ← readExcel wb "Community_Metrics"
  let community ← loadTable g4 2 11 13 communityCols (some "Metric")
  let g5 ← readExcel wb "Historical_Data"
  let historical ← loadTable g5 2 17 6 historicalCols (some "Metric")
  let g6 ← readExcel wb "Goals_2030"
  let goals ← loadTable g6 2 7 5 goalsCols (some "Goal")
  return ⟨summary, revenue, expenses, community, historical, goals⟩

/-- Cell of a row at column index `i` (rows of a `Table` have the assigned
width; out-of-range reads pad with NaN like the slicing does). -/
def cellAt (r : List Cell) (i : Nat) : Cell :=
  (r.get? i).getD Cell.nan

/-- Position of a column name in a table, `df[col]`'s lookup: `none` models
the `KeyError` pandas raises for an absent column. -/
def colIndex (t : Table) (col : String) : Option Nat :=
  t.columns.findIdx? (fun c => c == col)

/-- Whether a consumer treats the row as the aggregate row: the dashboard's
pages select or exclude it with the comparison `Category == 'TOTAL'` resp.
`Category != 'TOTAL'` (src/app.py lines 180, 200, 244, 266, 349, 373) —
exact, case-sensitive string equality. -/
def isAggregateRow (r : List Cell) : Bool :=
  cellEqStr (rowLabel r) "TOTAL"

/-- The metric-lookup pattern of the dashboard pages (e.g. src/app.py line
148): `safe_float(t[t[key] == label][col].values[0] if len(t[t[key] ==
label]) > 0 else dflt, dflt)`.  With no matching row the conditional
short-circuits to the default; with a matching row the column is accessed —
raising `KeyError` when absent — and `.values[0]` takes the first match in
table order. -/
def lookupPattern (t : Table) (label : String) (col : String) (dflt : Rat) :
    Except String PyNum :=
  match t.rows.filter (fun r => cellEqStr (rowLabel r) label) with
  | [] => .ok (PyNum.fin dflt)
  | r :: _ =>
      match colIndex t col with
      | some i => .ok (safeFloat (cellAt r i) dflt)
      | Option.none => .error "KeyError"

/-- The Executive-Summary revenue KPI (src/app.py line 148): look up the
`Current` cell of the `Total Revenue YTD` row of the summary table, with
default 0. -/
def execRevenueYtd (t : Table) : Except String PyNum :=
  lookupPattern t "Total Revenue YTD" "Current" 0

/-- `series.fillna(0).sum()` over a column of cells, as the Revenue-Analysis
fallback computes it: NA cells count as 0, numbers add up; a remaining
string cell makes the mixed-type sum raise `TypeError`. -/
def fillnaSum (cs : List Cell) : Except String Rat :=
  cs.foldl
    (fun acc c =>
      match acc, c with
      | .error e, _ => .error e
      | .ok a, .null => .ok a
      | .ok a, .nan => .ok a
      | .ok a, .num q => .ok (a + q)
      | .ok _, .str _ => .error "TypeError")
    (.ok 0)

/-- The Revenue-Analysis YTD total (src/app.py lines 244-250): if a row
labelled `TOTAL` exists, `safe_float` of its `YTD` cell; otherwise the sum
`revenue['YTD'].fillna(0).sum()` over all rows. -/
def revenueAnalysisYtd (t : Table) : Except String PyNum :=
  match t.rows.filter (fun r => cellEqStr (rowLabel r) "TOTAL") with
  | r :: _ =>
      match colIndex t "YTD" with
      | some i => .ok (safeFloat (cellAt r i) 0)
      | Option.none => .error "KeyError"
  | [] =>
      match colIndex t "YTD" with
      | some i => (fillnaSum (t.rows.map (fun r => cellAt r i))).map PyNum.fin
      | Option.none => .error "KeyError"

/-- Round-half-to-even on a rational, the rounding Python's `:,.0f` format
applies. -/
def roundHalfEven (q : Rat) : Int :=
  let f : Int := q.floor
  let r : Rat := q - (f : Rat)
  if r < 1 / 2 then f
  else if 1 / 2 < r then f + 1
  else if f % 2 = 0 then f else f + 1

/-- Thousands grouping of a digit list, as `:,.0f` prints it. -/
def withCommas (ds : List Char) : List Char :=
  ((ds.reverse.enum.map
    (fun p => if p.1 % 3 = 0 ∧ p.1 ≠ 0 then [',', p.2] else [p.2])).flatten).reverse

/-- `format_currency` (src/app.py lines 117-120): `"$0"` for NA or zero,
otherwise `f"${val:,.0f}"`. -/
def formatCurrency (v : PyNum) : String :=
  match v with
  | .nan => "$0"
  | .inf b => if b then "$-inf" else "$inf"
  | .fin q =>
      if q = 0 then "$0"
      else
        let n := roundHalfEven q
        let s := String.mk (withCommas (toString n.natAbs).data)
        if n < 0 then "$-" ++ s else "$" ++ s

/-- The goals percent normalization (src/app.py lines 227-229 and 659-661):
a fractional value below 1 is scaled to a percentage, a value at or above 1
is used unchanged. -/
def pctNormalize (v : Rat) : Rat :=
  if v < 1 then v * 100 else v

/-- The `st.progress` argument (src/app.py line 231):
`min(pct / 100, 1.0)` after normalization. -/
def progressArg (v : Rat) : Rat :=
  min (pctNormalize v / 100) 1

/-- The six sheet names `load_data` reads, in read order. -/
def sheetNames : List String :=
  ["Dashboard_Data", "Monthly_Revenue", "Monthly_Expenses",
   "Community_Metrics", "Historical_Data", "Goals_2030"]

/-- Whether every sheet `load_data` needs is present in the workbook. -/
def allSheetsPresent (wb : Workbook) : Bool :=
  sheetNames.all (fun n => (lookupSheet wb n).isSome)

/-- A minimal well-formed workbook: every sheet present, each wide enough
for its column-name list, all data rows above the data range (so every
extracted table is empty). -/
def wbGood : Workbook :=
  [("Dashboard_Data", [List.replicate 6 Cell.nan]),
   ("Monthly_Revenue", [List.replicate 16 Cell.nan]),
   ("Monthly_Expenses", [List.replicate 16 Cell.nan]),
   ("Community_Metrics", [List.replicate 13 Cell.nan]),
   ("Historical_Data", [List.replicate 6 Cell.nan]),
   ("Goals_2030", [List.replicate 5 Cell.nan])]

/-- What `load_data` returns on `wbGood`: six empty tables. -/
def dGood : DashData :=
  ⟨⟨summaryCols, []⟩, ⟨revenueCols, []⟩, ⟨expensesCols, []⟩,
   ⟨communityCols, []⟩, ⟨historicalCols, []⟩, ⟨goalsCols, []⟩⟩

/-- `wbGood` with a Dashboard_Data sheet of only 3 columns: all sheets are
present and `key_column` 0 is in range, but the sheet is narrower than the
6-name column list. -/
def wbNarrow : Workbook :=
  [("Dashboard_Data", [List.replicate 3 Cell.nan]),
   ("Monthly_Revenue", [List.replicate 16 Cell.nan]),
   ("Monthly_Expenses", [List.replicate 16 Cell.nan]),
   ("Community_Metrics", [List.replicate 13 Cell.nan]),
   ("Historical_Data", [List.replicate 6 Cell.nan]),
   ("Goals_2030", [List.replicate 5 Cell.nan])]

/-- A revenue data row labelled `Total` (mixed case). -/
def rowMixedTotal : List Cell :=
  Cell.str "Total" :: List.replicate 15 (Cell.num 1)

/-- A Monthly_Revenue grid whose only data row is labelled `Total`. -/
def gMixed : Grid :=
  [[], [], rowMixedTotal]

/-- A revenue data row labelled `TOTAL` (upper case, as the template writes
it). -/
def rowAllTotal : List Cell :=
  Cell.str "TOTAL" :: List.replicate 15 (Cell.num 2)

/-- A Monthly_Revenue grid whose only data row is labelled `TOTAL`. -/
def gTotal : Grid :=
  [[], [], rowAllTotal]

/-- A two-column table with a single row: label `X`, value 5. -/
def tOneRow : Table :=
  ⟨["Metric", "Current"], [[Cell.str "X", Cell.num 5]]⟩

/-- A summary table that lacks the `Total Revenue YTD` row. -/
def tMissing : Table :=
  ⟨summaryCols, []⟩

/-- A summary table whose `Total Revenue YTD` row holds a genuine zero. -/
def tZero : Table :=
  ⟨summaryCols,
   [[Cell.str "Total Revenue YTD", Cell.num 0,
     Cell.nan, Cell.nan, Cell.nan, Cell.nan]]⟩

/-- A revenue table with no `TOTAL` row and one detail row whose `YTD`
cell (column index 13) is 100. -/
def tDetail : Table :=
  ⟨revenueCols,
   [Cell.str "Grants" :: List.replicate 12 Cell.nan
     ++ [Cell.num 100, Cell.nan, Cell.nan]]⟩

theorem except_bind_ok {α β : Type} {x : Except String α}
    {f : α → Except String β} {b : β} (h : x >>= f = .ok b) :
    ∃ a, x = .ok a ∧ f a = .ok b := by
  cases x with
  | error e => simp [Bind.bind, Except.bind] at h
  | ok a => exact ⟨a, rfl, by simpa [Bind.bind, Except.bind] using h⟩

theorem readExcel_ok {wb : Workbook} {n : String} {g : Grid}
    (h : readExcel wb n = .ok g) : lookupSheet wb n = some g := by
  unfold readExcel at h
  cases hl : lookupSheet wb n <;> rw [hl] at h
  · exact Except.noConfusion h
  · injection h with h
    rw [h]

theorem loadTable_ok {g : Grid} {r0 r1 k : Nat} {names : List String}
    {hdr : Option String} {t : Table}
    (h : loadTable g r0 r1 k names hdr = .ok t) :
    min k (gridNCols g) = names.length ∧
    t = ⟨names, (ilocSlice g r0 r1 k).filter (keepRow hdr)⟩ := by
  unfold loadTable at h
  split at h
  · next hc =>
      injection h with h
      exact ⟨hc, h.symm⟩
  · exact Except.noConfusion h

theorem loadData_ok_elim {wb : Workbook} {d : DashData}
    (h : loadData wb = .ok d) :
    ∃ g1 g2 g3 g4 g5 g6,
      lookupSheet wb "Dashboard_Data" = some g1 ∧
      loadTable g1 4 28 6 summaryCols Option.none = .ok d.summary ∧
      lookupSheet wb "Monthly_Revenue" = some g2 ∧
      loadTable g2 2 12 16 revenueCols (some "Category") = .ok d.revenue ∧
      lookupSheet wb "Monthly_Expenses" = some g3 ∧
      loadTable g3 2 8 16 expensesCols (some "Category") = .ok d.expenses ∧
      lookupSheet wb "Community_Metrics" = some g4 ∧
      loadTable g4 2 11 13 communityCols (some "Metric") = .ok d.community ∧
      lookupSheet wb "Historical_Data" = some g5 ∧
      loadTable g5 2 17 6 historicalCols (some "Metric") = .ok d.historical ∧
      lookupSheet wb "Goals_2030" = some g6 ∧
      loadTable g6 2 7 5 goalsCols (some "Goal") = .ok d.goals := by
  unfold loadData at h
  obtain ⟨g1, hg1, h⟩ := except_bind_ok h
  obtain ⟨s, hs, h⟩ := except_bind_ok h
  obtain ⟨g2, hg2, h⟩ := except_bind_ok h
  obtain ⟨r, hr, h⟩ := except_bind_ok h
  obtain ⟨g3, hg3, h⟩ := except_bind_ok h
  obtain ⟨e, he, h⟩ := except_bind_ok h
  obtain ⟨g4, hg4, h⟩ := except_bind_ok h
  obtain ⟨c, hc, h⟩ := except_bind_ok h
  obtain ⟨g5, hg5, h⟩ := except_bind_ok h
  obtain ⟨hi, hhi, h⟩ := except_bind_ok h
  obtain ⟨g6, hg6, h⟩ := except_bind_ok h
  obtain ⟨go, hgo, h⟩ := except_bind_ok h
  have h' : (Except.ok (⟨s, r, e, c, hi, go⟩ : DashData) : Except String DashData)
      = Except.ok d := h
  injection h' with h'
  subst h'
  exact ⟨g1, g2, g3, g4, g5, g6, readExcel_ok hg1, hs, readExcel_ok hg2, hr,
    readExcel_ok hg3, he, readExcel_ok hg4, hc, readExcel_ok hg5, hhi,
    readExcel_ok hg6, hgo⟩

/-- Claim C1: for every cell that is null, NaN, the empty string or the
literal string `NA` in any casing, `safe_float` returns the caller-supplied
default.  (That it never raises for any input is structural: the whole
conversion is wrapped in `try`/`except`, so `safeFloat` is a total
function.) -/
theorem safeFloat_sentinels_default (d : Rat) :
    safeFloat Cell.null d = PyNum.fin d ∧
    safeFloat Cell.nan d = PyNum.fin d ∧
    safeFloat (Cell.str "") d = PyNum.fin d ∧
    safeFloat (Cell.str "NA") d = PyNum.fin d ∧
    safeFloat (Cell.str "Na") d = PyNum.fin d ∧
    safeFloat (Cell.str "nA") d = PyNum.fin d ∧
    safeFloat (Cell.str "na") d = PyNum.fin d :=
  ⟨rfl, rfl, rfl, rfl, rfl, rfl, rfl⟩

/-- Claim C2 counterexample: on a workbook with no sheets at all (the
missing-sheet scenario) `load_data` does not return an empty table — the
`pd.read_excel` call raises, and `load_data` has no handler, so the
exception reaches the caller. -/
theorem loadData_missing_sheet_raises :
    loadData ([] : Workbook)
      = .error "Worksheet Dashboard_Data not found" := rfl

/-- Claim C2 (amended): a successful `load_data` requires every one of the
six sheets to be present; when a sheet is absent the operation signals an
error to its caller instead of returning an empty table. -/
theorem loadData_ok_requires_sheets {wb : Workbook} {d : DashData}
    (h : loadData wb = .ok d) : allSheetsPresent wb = true := by
  obtain ⟨g1, g2, g3, g4, g5, g6, h1, -, h2, -, h3, -, h4, -, h5, -, h6, -⟩ :=
    loadData_ok_elim h
  simp [allSheetsPresent, sheetNames, h1, h2, h3, h4, h5, h6]

/-- Witness for the amended C2 theorem at the concrete workbook `wbGood`. -/
theorem loadData_ok_requires_sheets_witness :
    loadData wbGood = .ok dGood ∧ allSheetsPresent wbGood = true :=
  ⟨rfl, @loadData_ok_requires_sheets wbGood dGood rfl⟩

/-- Claim C3 counterexample: a data row labelled `Total` — which matches the
aggregate marker `TOTAL` case-insensitively — is kept in the extracted
revenue table, but the dashboard's aggregate test (`Category == 'TOTAL'`,
exact and case-sensitive) does not flag it, so it is treated as a detail
row. -/
theorem mixedcase_total_not_flagged :
    loadTable gMixed 2 12 16 revenueCols (some "Category")
      = .ok ⟨revenueCols, [rowMixedTotal]⟩ ∧
    isAggregateRow rowMixedTotal = false :=
  ⟨rfl, rfl⟩

/-- Claim C3 (amended): every data row of the Monthly_Revenue range whose
label is exactly the string `TOTAL` is present in the extracted table (not
dropped) and is recognized as the aggregate row by the consumers' exact,
case-sensitive comparison; case variants such as `Total` are kept but not
recognized. -/
theorem total_rows_present_and_flagged {g : Grid} {t : Table} {r : List Cell}
    (h : loadTable g 2 12 16 revenueCols (some "Category") = .ok t)
    (hr : r ∈ ilocSlice g 2 12 16) (hl : rowLabel r = Cell.str "TOTAL") :
    r ∈ t.rows ∧ isAggregateRow r = true := by
  obtain ⟨-, ht⟩ := loadTable_ok h
  subst ht
  refine ⟨List.mem_filter.mpr ⟨hr, ?_⟩, ?_⟩
  · simp [keepRow, hl, isna, cellNeStr]
  · simp [isAggregateRow, hl, cellEqStr]

/-- Witness for the amended C3 theorem: the `TOTAL` row of the concrete grid
`gTotal` is present and flagged. -/
theorem total_rows_present_and_flagged_witness :
    rowAllTotal ∈ (Table.mk revenueCols [rowAllTotal]).rows ∧
    isAggregateRow rowAllTotal = true :=
  @total_rows_present_and_flagged gTotal ⟨revenueCols, [rowAllTotal]⟩
    rowAllTotal rfl (by decide) rfl

/-- Claim C4 counterexample: when a row matches the predicate but the
requested column is absent, the lookup pattern does not return the default —
the pandas column access raises `KeyError`. -/
theorem lookup_missing_column_raises :
    lookupPattern tOneRow "X" "Bogus" 7 = .error "KeyError" ∧
    lookupPattern tOneRow "X" "Bogus" 7 ≠ .ok (PyNum.fin 7) := by
  refine ⟨rfl, fun hc => ?_⟩
  rw [show lookupPattern tOneRow "X" "Bogus" 7
      = Except.error "KeyError" from rfl] at hc
  exact Except.noConfusion hc

/-- Claim C4 (amended): the lookup pattern returns the caller's default when
zero rows match the predicate; when one or more rows match and the column
exists it returns the first matching row's coerced value in table order;
with a matching row and an absent column it raises `KeyError` rather than
defaulting (a case that cannot arise for the tables `load_data` builds,
whose column names are fixed). -/
theorem lookupPattern_first_match_or_default :
    (∀ (t : Table) (label col : String) (d : Rat),
      t.rows.filter (fun r => cellEqStr (rowLabel r) label) = [] →
      lookupPattern t label col d = .ok (PyNum.fin d)) ∧
    (∀ (t : Table) (label col : String) (d : Rat) (i : Nat)
      (r : List Cell) (rest : List (List Cell)),
      colIndex t col = some i →
      t.rows.filter (fun r => cellEqStr (rowLabel r) label) = r :: rest →
      lookupPattern t label col d = .ok (safeFloat (cellAt r i) d)) := by
  constructor
  · intro t label col d h
    unfold lookupPattern
    rw [h]
  · intro t label col d i r rest hi h
    unfold lookupPattern
    rw [h, hi]

/-- Witness for the amended C4 theorem: no match on `tOneRow` for label `Y`
gives the default 7; the match for label `X` returns the first row's
`Current` value. -/
theorem lookupPattern_first_match_or_default_witness :
    lookupPattern tOneRow "Y" "Current" 7 = .ok (PyNum.fin 7) ∧
    lookupPattern tOneRow "X" "Current" 7
      = .ok (safeFloat (cellAt [Cell.str "X", Cell.num 5] 1) 7) :=
  ⟨lookupPattern_first_match_or_default.1 tOneRow "Y" "Current" 7 rfl,
   lookupPattern_first_match_or_default.2 tOneRow "X" "Current" 7 1
     [Cell.str "X", Cell.num 5] [] rfl rfl⟩

/-- Claim C5: the extracted table's rows — and hence its label sequence —
form an order-preserving subsequence of the sliced data-row range of the
input grid, so no row is reordered or duplicated by extraction. -/
theorem extract_rows_sublist {g : Grid} {r0 r1 k : Nat} {names : List String}
    {hdr : Option String} {t : Table}
    (h : loadTable g r0 r1 k names hdr = .ok t) :
    List.Sublist t.rows (ilocSlice g r0 r1 k) ∧
    List.Sublist (t.rows.map rowLabel) ((ilocSlice g r0 r1 k).map rowLabel) := by
  obtain ⟨-, ht⟩ := loadTable_ok h
  subst ht
  exact ⟨List.filter_sublist _, (List.filter_sublist _).map _⟩

/-- Witness for the C5 theorem at the concrete grid `gMixed`. -/
theorem extract_rows_sublist_witness :
    List.Sublist (Table.mk revenueCols [rowMixedTotal]).rows
      (ilocSlice gMixed 2 12 16) ∧
    List.Sublist ((Table.mk revenueCols [rowMixedTotal]).rows.map rowLabel)
      ((ilocSlice gMixed 2 12 16).map rowLabel) :=
  @extract_rows_sublist gMixed 2 12 16 revenueCols (some "Category")
    ⟨revenueCols, [rowMixedTotal]⟩ rfl

/-- Claim C6 counterexample: `wbNarrow` has every sheet present and its
key column 0 in range for a non-empty grid, yet `load_data` raises: the
Dashboard_Data sheet is 3 columns wide and assigning the 6 fixed column
names raises pandas' length-mismatch `ValueError`.  A sheet-shape data
problem therefore raises, contradicting the claim that only a `key_column`
index out of range does. -/
theorem narrow_sheet_raises :
    loadData wbNarrow = .error "Length mismatch" := rfl

/-- Claim C6 (amended): `load_data` raises exactly for a missing sheet or
for a sheet narrower than its fixed column-name list; once every sheet is
present and wide enough it succeeds for arbitrary cell contents — cell-level
data problems (unparsable cells, absent rows) never raise. -/
theorem loadData_ok_of_shape {wb : Workbook} {g1 g2 g3 g4 g5 g6 : Grid}
    (h1 : lookupSheet wb "Dashboard_Data" = some g1)
    (h2 : lookupSheet wb "Monthly_Revenue" = some g2)
    (h3 : lookupSheet wb "Monthly_Expenses" = some g3)
    (h4 : lookupSheet wb "Community_Metrics" = some g4)
    (h5 : lookupSheet wb "Historical_Data" = some g5)
    (h6 : lookupSheet wb "Goals_2030" = some g6)
    (w1 : 6 ≤ gridNCols g1) (w2 : 16 ≤ gridNCols g2)
    (w3 : 16 ≤ gridNCols g3) (w4 : 13 ≤ gridNCols g4)
    (w5 : 6 ≤ gridNCols g5) (w6 : 5 ≤ gridNCols g6) :
    ∃ d, loadData wb = .ok d := by
  refine ⟨⟨⟨summaryCols, (ilocSlice g1 4 28 6).filter (keepRow Option.none)⟩,
    ⟨revenueCols, (ilocSlice g2 2 12 16).filter (keepRow (some "Category"))⟩,
    ⟨expensesCols, (ilocSlice g3 2 8 16).filter (keepRow (some "Category"))⟩,
    ⟨communityCols, (ilocSlice g4 2 11 13).filter (keepRow (some "Metric"))⟩,
    ⟨historicalCols, (ilocSlice g5 2 17 6).filter (keepRow (some "Metric"))⟩,
    ⟨goalsCols, (ilocSlice g6 2 7 5).filter (keepRow (some "Goal"))⟩⟩, ?_⟩
  simp [loadData, readExcel, h1, h2, h3, h4, h5, h6, loadTable,
    Nat.min_eq_left w1, Nat.min_eq_left w2, Nat.min_eq_left w3,
    Nat.min_eq_left w4, Nat.min_eq_left w5, Nat.min_eq_left w6,
    summaryCols, revenueCols, expensesCols, communityCols, historicalCols,
    goalsCols, Bind.bind, Except.bind, pure, Except.pure]

/-- Witness for the amended C6 theorem at the concrete workbook `wbGood`. -/
theorem loadData_ok_of_shape_witness :
    ∃ d, loadData wbGood = .ok d :=
  @loadData_ok_of_shape wbGood
    [List.replicate 6 Cell.nan] [List.replicate 16 Cell.nan]
    [List.replicate 16 Cell.nan] [List.replicate 13 Cell.nan]
    [List.replicate 6 Cell.nan] [List.replicate 5 Cell.nan]
    rfl rfl rfl rfl rfl rfl
    (by decide) (by decide) (by decide) (by decide) (by decide) (by decide)

/-- Claim C7: `extract` and `lookup` are deterministic pure functions of
their inputs: two calls on the same workbook (resp. the same table,
predicate label, column and default) produce structurally equal results.
In this embedding both are Lean functions of their arguments alone, so
purity — no shared mutable state, no I/O — holds by construction. -/
theorem extract_lookup_deterministic :
    (∀ wb : Workbook, loadData wb = loadData wb) ∧
    (∀ (t : Table) (label col : String) (d : Rat),
      lookupPattern t label col d = lookupPattern t label col d) :=
  ⟨fun _ => rfl, fun _ _ _ _ => rfl⟩

/-- Claim C8 counterexample: with the `TOTAL` row absent, the Revenue
Analysis total does not default to 0 — it falls back to the sum of the
remaining rows' `YTD` cells (100 for `tDetail`). -/
theorem revenue_fallback_sums_not_zero :
    revenueAnalysisYtd tDetail = .ok (PyNum.fin 100) ∧
    revenueAnalysisYtd tDetail ≠ .ok (PyNum.fin 0) := by
  have h : revenueAnalysisYtd tDetail = .ok (PyNum.fin 100) := by
    simp [revenueAnalysisYtd, tDetail, fillnaSum, colIndex, cellAt, cellEqStr,
      rowLabel, revenueCols, Except.map]
  refine ⟨h, fun hc => ?_⟩
  rw [h] at hc
  injection hc with hc
  injection hc with hc
  norm_num at hc

/-- Claim C8 (amended): missing lookups degrade silently, with no exception
and no user-visible warning: the Executive-Summary revenue KPI defaults to 0
when its row is absent — indistinguishable, after `format_currency`, from a
genuinely zero metric — while the Revenue-Analysis total falls back to the
sum of the detail rows' `YTD` cells (0 only when they hold no data) rather
than to 0. -/
theorem missing_lookup_degrades_silently :
    (∀ t : Table,
      t.rows.filter (fun r => cellEqStr (rowLabel r) "Total Revenue YTD") = [] →
      execRevenueYtd t = .ok (PyNum.fin 0)) ∧
    (∀ (t : Table) (i : Nat),
      t.rows.filter (fun r => cellEqStr (rowLabel r) "TOTAL") = [] →
      colIndex t "YTD" = some i →
      revenueAnalysisYtd t
        = (fillnaSum (t.rows.map (fun r => cellAt r i))).map PyNum.fin) ∧
    (tMissing ≠ tZero ∧
      (execRevenueYtd tMissing).map formatCurrency = .ok "$0" ∧
      (execRevenueYtd tZero).map formatCurrency = .ok "$0") := by
  refine ⟨?_, ?_, ?_, ?_, ?_⟩
  · intro t h
    unfold execRevenueYtd lookupPattern
    rw [h]
  · intro t i h hi
    unfold revenueAnalysisYtd
    rw [h, hi]
  · intro hc
    have : tMissing.rows = tZero.rows := by rw [hc]
    simp [tMissing, tZero] at this
  · rfl
  · simp [execRevenueYtd, lookupPattern, tZero, colIndex, summaryCols,
      cellEqStr, rowLabel, cellAt, safeFloat, isna, pyFloatOf, formatCurrency,
      Except.map]

/-- Witness for the amended C8 theorem at the concrete tables `tMissing`
and `tDetail`. -/
theorem missing_lookup_degrades_silently_witness :
    execRevenueYtd tMissing = .ok (PyNum.fin 0) ∧
    revenueAnalysisYtd tDetail
      = (fillnaSum (tDetail.rows.map (fun r => cellAt r 13))).map PyNum.fin :=
  ⟨missing_lookup_degrades_silently.1 tMissing rfl,
   missing_lookup_degrades_silently.2.1 tDetail 13 rfl rfl⟩

/-- Claim C9: every extracted table's column names are the fixed per-sheet
list `load_data` assigns, and every one of those lists is duplicate-free —
so column names are always unique.  (The duplicate-suffixing clause is
vacuous here: the header names are hard-coded literals and never contain
duplicates, so the suffixing mechanism can never fire.) -/
theorem extracted_columns_unique :
    summaryCols.Nodup ∧ revenueCols.Nodup ∧ expensesCols.Nodup ∧
    communityCols.Nodup ∧ historicalCols.Nodup ∧ goalsCols.Nodup ∧
    (∀ (wb : Workbook) (d : DashData), loadData wb = .ok d →
      d.summary.columns = summaryCols ∧ d.revenue.columns = revenueCols ∧
      d.expenses.columns = expensesCols ∧
      d.community.columns = communityCols ∧
      d.historical.columns = historicalCols ∧
      d.goals.columns = goalsCols) := by
  refine ⟨by decide, by decide, by decide, by decide, by decide, by decide,
    ?_⟩
  intro wb d h
  obtain ⟨g1, g2, g3, g4, g5, g6, -, hs, -, hr, -, he, -, hc, -, hh, -, hg⟩ :=
    loadData_ok_elim h
  exact ⟨by rw [(loadTable_ok hs).2], by rw [(loadTable_ok hr).2],
    by rw [(loadTable_ok he).2], by rw [(loadTable_ok hc).2],
    by rw [(loadTable_ok hh).2], by rw [(loadTable_ok hg).2]⟩

/-- Witness for the C9 theorem at the concrete workbook `wbGood`. -/
theorem extracted_columns_unique_witness :
    dGood.summary.columns = summaryCols ∧
    dGood.revenue.columns = revenueCols ∧
    dGood.expenses.columns = expensesCols ∧
    dGood.community.columns = communityCols ∧
    dGood.historical.columns = historicalCols ∧
    dGood.goals.columns = goalsCols :=
  extracted_columns_unique.2.2.2.2.2.2 wbGood dGood rfl

/-- Claim C10 counterexample: for the numeric percent-complete value −5 the
normalization multiplies by 100 (−5 < 1) and the progress-bar argument
`min(pct / 100, 1.0)` evaluates to −5, which is not in [0, 1] — `min` only
bounds the value from above. -/
theorem progress_negative_input_escapes :
    progressArg (-5) = -5 ∧ ¬ (0 ≤ progressArg (-5) ∧ progressArg (-5) ≤ 1) := by
  have h : progressArg (-5) = -5 := by
    unfold progressArg pctNormalize
    rw [if_pos (by norm_num)]
    rw [show ((-5 : Rat) * 100 / 100) = -5 by norm_num]
    rw [min_eq_left (by norm_num)]
  refine ⟨h, fun hc => ?_⟩
  rw [h] at hc
  norm_num at hc

/-- Claim C10 (amended): the percent-complete normalization is as described
(values below 1 are scaled by 100, others used unchanged) and the
progress-bar argument `min(pct / 100, 1.0)` is at most 1 for every numeric
input, and lies within [0, 1] for every nonnegative numeric input; a
negative input escapes below 0. -/
theorem progress_arg_bounds :
    (∀ v : Rat, progressArg v ≤ 1) ∧
    (∀ v : Rat, 0 ≤ v → 0 ≤ progressArg v ∧ progressArg v ≤ 1) := by
  have hub : ∀ v : Rat, progressArg v ≤ 1 := fun v => min_le_right _ _
  refine ⟨hub, fun v hv => ⟨?_, hub v⟩⟩
  unfold progressArg pctNormalize
  rcases lt_or_le v 1 with h | h
  · rw [if_pos h, show (v * 100 / 100 : Rat) = v by ring]
    exact le_min hv zero_le_one
  · rw [if_neg (not_lt.mpr h)]
    exact le_min (div_nonneg (zero_le_one.trans h) (by norm_num)) zero_le_one

/-- Witness for the amended C10 theorem at the concrete input 0. -/
theorem progress_arg_bounds_witness :
    0 ≤ progressArg 0 ∧ progressArg 0 ≤ 1 :=
  progress_arg_bounds.2 0 le_rfl

end Flourish
